import Mathlib

/-!
Shallow embedding of src/core/components/dht.js (js-ipfs content-routing
facade over the libp2p DHT engine).

The facade receives a node object holding two collaborators:
  - self.repo.blockstore.has(key, cb)      : local block-existence check
  - self.libp2p.dht.{getClosestPeers, findProviders, findPeer, get, put,
    provide}                               : the DHT engine adapter
Collaborators are modelled as pure oracles in an environment record; each
asynchronous callback result is an Except value.  A facade call is modelled
as a pure function of the environment; where the interesting contract is
which collaborator calls happen, the function also returns a trace of
events.

Faithfulness notes (traceable to the source):
  - async every over the key list launches one blockstore.has sub-task per
    key and joins with all-of semantics; the joined result is the first
    error, else the conjunction of the booleans.  The model computes the
    join left to right, a deterministic refinement of the parallel join;
    every claim below lives in environments where the choice is invisible.
  - the source guards with "if (!Array.isArray(keys)) keys = [keys]" and
    "if (typeof options === \x27function\x27) { callback = options;
    options = \x7b\x7d }"; both dynamic checks are modelled by sum types.
  - in the non-recursive announce branch the source reads the variable
    cids ("each(cids, ...)") which is not defined anywhere in the module;
    under use strict this raises "ReferenceError: cids is not defined"
    before each is even entered, so no engine provide call is ever made
    and the user callback is never invoked.  The model renders this path
    as Outcome.crash with that message.
  - the recursive branch is an empty TODO: no engine call, no callback.
    The model renders it as Outcome.noCallback.
-/

/-- Content identifiers: equality is by identifier value. -/
abbrev CID := Nat

/-- Network addresses (multiaddrs), opaque to the facade. -/
abbrev Multiaddr := Nat

/-- Opaque byte sequences used as DHT keys and values. -/
abbrev Bytes := List Nat

/-- A peer object; the source reads peer.id in query and passes the whole
object to the engine in findpeer. -/
structure Peer where
  id : Nat
deriving DecidableEq

/-- An error value carried through a callback err slot. -/
structure Err where
  message : String
deriving DecidableEq

/-- The set of multiaddresses attached to a peer record; the source calls
info.multiaddrs.toArray() to flatten it to a plain array. -/
structure MultiaddrSet where
  elems : List Multiaddr
deriving DecidableEq

/-- Flattening of a MultiaddrSet to a plain ordered sequence, as the
toArray method of the source record does. -/
def MultiaddrSet.toArray (s : MultiaddrSet) : List Multiaddr :=
  s.elems

/-- The peer record returned by the engine findPeer lookup. -/
structure PeerInfo where
  multiaddrs : MultiaddrSet
deriving DecidableEq

/-- The options object of provide; the source documents
options.recursive with default false, and reading recursive off the empty
object yields a falsy value, modelled as false. -/
structure ProvideOptions where
  recursive : Bool
deriving DecidableEq

/-- The collaborators held by the node object self: the local blockstore
and the DHT engine adapter.  Each oracle returns what the collaborator
would deliver to its callback. -/
structure Env where
  blockstoreHas : CID → Except Err Bool
  dhtGetClosestPeers : Nat → Except Err (List Peer)
  dhtFindProviders : CID → Except Err (List PeerInfo)
  dhtFindPeer : Peer → Except Err PeerInfo
  dhtGet : Bytes → Except Err Bytes
  dhtPut : Bytes → Bytes → Except Err Unit
  dhtProvide : CID → Except Err Unit

/-- Collaborator calls observable during a provide run. -/
inductive Event where
  | storeHas : CID → Event
  | engineProvide : CID → Event
deriving DecidableEq

/-- How a provide run settles at the user callback. -/
inductive Outcome where
  | ok : Outcome
  | fail : Err → Outcome
  | noCallback : Outcome
  | crash : String → Outcome
deriving DecidableEq

/-- The error built by the source when the local gate fails:
new Error("Not all blocks exist locally, can not provide"). -/
def localAvailabilityError : Err :=
  ⟨"Not all blocks exist locally, can not provide"⟩

/-- query: delegates to the engine closest-peers search on peer.id. -/
def query (env : Env) (peer : Peer) : Except Err (List Peer) :=
  env.dhtGetClosestPeers peer.id

/-- findprovs: delegates to the engine provider search. -/
def findprovs (env : Env) (key : CID) : Except Err (List PeerInfo) :=
  env.dhtFindProviders key

/-- findpeer: delegates to the engine peer-record lookup, then flattens
the multiaddrs of the record with toArray; an engine error is passed to
the callback unchanged. -/
def findpeer (env : Env) (peer : Peer) : Except Err (List Multiaddr) :=
  match env.dhtFindPeer peer with
  | .error e => .error e
  | .ok info => .ok info.multiaddrs.toArray

/-- get: delegates directly to the engine key lookup. -/
def get (env : Env) (key : Bytes) : Except Err Bytes :=
  env.dhtGet key

/-- put: delegates directly to the engine key/value write. -/
def put (env : Env) (key value : Bytes) : Except Err Unit :=
  env.dhtPut key value

/-- The joined result of async every over blockstore.has: first error by
list order, else the conjunction of the reported booleans. -/
def everyHasResult (env : Env) : List CID → Except Err Bool
  | [] => .ok true
  | k :: ks =>
    match env.blockstoreHas k with
    | .error e => .error e
    | .ok b =>
      match everyHasResult env ks with
      | .error e => .error e
      | .ok rest => .ok (b && rest)

/-- The body of provide after argument normalization.  The trace records
one storeHas event per key (the fan-out launches a check for every key);
then: an error from a check is passed to the callback; a false aggregate
triggers localAvailabilityError before any network contact; with all
blocks local, the recursive branch is an unimplemented TODO (callback
never invoked), and the non-recursive branch raises a ReferenceError on
the undefined variable cids before any engine provide call. -/
def provideCore (env : Env) (keys : List CID) (options : ProvideOptions) :
    Outcome × List Event :=
  let trace := keys.map Event.storeHas
  match everyHasResult env keys with
  | .error e => (.fail e, trace)
  | .ok false => (.fail localAvailabilityError, trace)
  | .ok true =>
    if options.recursive then
      (.noCallback, trace)
    else
      (.crash "ReferenceError: cids is not defined", trace)

/-- The keys argument of provide: a single CID or a collection. -/
inductive KeysArg where
  | single : CID → KeysArg
  | coll : List CID → KeysArg

/-- if (!Array.isArray(keys)) keys = [keys] -/
def normalizeKeys : KeysArg → List CID
  | .single k => [k]
  | .coll ks => ks

/-- The second argument slot of provide: an options object, or the user
callback function passed in its place. -/
inductive OptionsArg where
  | value : ProvideOptions → OptionsArg
  | func : OptionsArg

/-- if (typeof options === function) { callback = options; options = \x7b\x7d }
Reading recursive off the empty object is falsy. -/
def normalizeOptions : OptionsArg → ProvideOptions
  | .value o => o
  | .func => ⟨false⟩

/-- provide: normalize the two dynamic arguments, then run the body. -/
def provide (env : Env) (keysArg : KeysArg) (optionsArg : OptionsArg) :
    Outcome × List Event :=
  provideCore env (normalizeKeys keysArg) (normalizeOptions optionsArg)

/-- Boolean test: the blockstore answered (did not error) for this key. -/
def storeAnswers (env : Env) (k : CID) : Bool :=
  match env.blockstoreHas k with
  | .ok _ => true
  | .error _ => false

/-- Boolean test: the blockstore reported this key present. -/
def presentLocally (env : Env) (k : CID) : Bool :=
  match env.blockstoreHas k with
  | .ok b => b
  | .error _ => false

/-- Boolean test: a trace contains no engine provide call. -/
def noEngineCalls (tr : List Event) : Bool :=
  tr.all fun e =>
    match e with
    | .engineProvide _ => false
    | _ => true

/-- Concrete environment: every block present, engine provide succeeds. -/
def envPresent : Env :=
  ⟨fun _ => .ok true, fun _ => .error ⟨"unused"⟩, fun _ => .error ⟨"unused"⟩,
   fun _ => .error ⟨"unused"⟩, fun _ => .error ⟨"unused"⟩,
   fun _ _ => .error ⟨"unused"⟩, fun _ => .ok ()⟩

/-- Concrete environment: no block present. -/
def envAbsent : Env :=
  ⟨fun _ => .ok false, fun _ => .error ⟨"unused"⟩, fun _ => .error ⟨"unused"⟩,
   fun _ => .error ⟨"unused"⟩, fun _ => .error ⟨"unused"⟩,
   fun _ _ => .error ⟨"unused"⟩, fun _ => .ok ()⟩

/-- Concrete environment: every block present, but the engine provide
call fails on key 1. -/
def envEngineFails : Env :=
  ⟨fun _ => .ok true, fun _ => .error ⟨"unused"⟩, fun _ => .error ⟨"unused"⟩,
   fun _ => .error ⟨"unused"⟩, fun _ => .error ⟨"unused"⟩,
   fun _ _ => .error ⟨"unused"⟩,
   fun k => if k = 1 then .error ⟨"engine failure on key 1"⟩ else .ok ()⟩

/-- Concrete environment: findPeer succeeds with a record carrying zero
addresses. -/
def envFindPeerEmpty : Env :=
  ⟨fun _ => .ok false, fun _ => .error ⟨"unused"⟩, fun _ => .error ⟨"unused"⟩,
   fun _ => .ok ⟨⟨[]⟩⟩, fun _ => .error ⟨"unused"⟩,
   fun _ _ => .error ⟨"unused"⟩, fun _ => .ok ()⟩

/-- When the blockstore answers for every key, the joined every result is
ok of the conjunction of the presence bits. -/
theorem everyHasResult_eq_all (env : Env) (keys : List CID)
    (h : keys.all (storeAnswers env) = true) :
    everyHasResult env keys = .ok (keys.all (presentLocally env)) := by
  induction keys with
  | nil => rfl
  | cons k ks ih =>
    rw [List.all_cons, Bool.and_eq_true] at h
    obtain ⟨hk, hks⟩ := h
    rw [List.all_cons]
    unfold storeAnswers at hk
    unfold everyHasResult
    cases hb : env.blockstoreHas k with
    | error e => rw [hb] at hk; simp at hk
    | ok b =>
      rw [ih hks]
      unfold presentLocally
      rw [hb]

/-- If every key is reported present, every key also got an answer. -/
theorem all_present_all_answers (env : Env) (keys : List CID)
    (h : keys.all (presentLocally env) = true) :
    keys.all (storeAnswers env) = true := by
  rw [List.all_eq_true] at h ⊢
  intro k hk
  have hp := h k hk
  unfold presentLocally at hp
  unfold storeAnswers
  cases hb : env.blockstoreHas k with
  | error e => rw [hb] at hp; simp at hp
  | ok b => rfl

/-- A trace made of storeHas events alone has no engine provide call. -/
theorem noEngineCalls_storeHas (keys : List CID) :
    noEngineCalls (keys.map Event.storeHas) = true := by
  induction keys with
  | nil => rfl
  | cons k ks ih =>
    rw [List.map_cons]
    unfold noEngineCalls at ih ⊢
    rw [List.all_cons, ih]
    rfl

/-- Claim C1: for identifier sets fully present locally, a non-recursive
provide is claimed to invoke the engine single-key provide once per
identifier and to resolve iff all those calls succeed.  The code instead
raises a ReferenceError on the undefined variable cids before entering
the announce loop: at keys = [0, 1] with both blocks local, the run
crashes, the trace holds only the two local checks, and no engine
provide call is ever made. -/
theorem C1_nonrecursive_provide_crashes :
    provide envPresent (.coll [0, 1]) (.value ⟨false⟩) =
      (.crash "ReferenceError: cids is not defined",
       [Event.storeHas 0, Event.storeHas 1]) := rfl

/-- Claim C2: whenever the blockstore answers for every key and reports
at least one key absent, provide fails with the local availability error
and the trace holds only local checks — no engine provide call, for any
options argument. -/
theorem C2_absent_key_gates_network (env : Env) (keys : List CID)
    (optionsArg : OptionsArg)
    (h1 : keys.all (storeAnswers env) = true)
    (h2 : keys.all (presentLocally env) = false) :
    provide env (.coll keys) optionsArg =
      (.fail localAvailabilityError, keys.map Event.storeHas) ∧
    noEngineCalls (provide env (.coll keys) optionsArg).2 = true := by
  have hcore : provide env (.coll keys) optionsArg =
      (.fail localAvailabilityError, keys.map Event.storeHas) := by
    unfold provide provideCore normalizeKeys
    rw [everyHasResult_eq_all env keys h1, h2]
  refine ⟨hcore, ?_⟩
  rw [hcore]
  exact noEngineCalls_storeHas keys

/-- Witness for C2: with no block local and keys = [5], provide fails
with the local availability error and never calls the engine. -/
theorem C2_absent_key_gates_network_witness :
    ([5].all (storeAnswers envAbsent) = true) ∧
    ([5].all (presentLocally envAbsent) = false) ∧
    (provide envAbsent (.coll [5]) (.value ⟨false⟩) =
       (.fail localAvailabilityError, [Event.storeHas 5]) ∧
     noEngineCalls (provide envAbsent (.coll [5]) (.value ⟨false⟩)).2 = true) :=
  ⟨rfl, rfl, C2_absent_key_gates_network envAbsent [5] (.value ⟨false⟩) rfl rfl⟩

/-- Claim C3: with recursive true and all blocks local, provide is
claimed to resolve and announce every transitively linked block.  The
recursive branch of the code is an empty TODO: at keys = [7] with the
block local, the run makes no engine call at all and the callback is
never invoked. -/
theorem C3_recursive_branch_does_nothing :
    provide envPresent (.coll [7]) (.value ⟨true⟩) =
      (.noCallback, [Event.storeHas 7]) := rfl

/-- Claim C4: the empty collection is claimed to be a no-op success.  The
code passes the vacuous local check (the every join over no keys yields
true) and then raises the ReferenceError on the undefined variable cids,
so the run crashes instead of resolving. -/
theorem C4_empty_keys_crash :
    provide envPresent (.coll []) (.value ⟨false⟩) =
      (.crash "ReferenceError: cids is not defined", []) ∧
    (provide envPresent (.coll []) (.value ⟨false⟩)).1 ≠ Outcome.ok :=
  ⟨rfl, by decide⟩

/-- Claim C5: with all blocks local and the engine provide call failing
on key 1, provide is claimed to fail with the engine error.  The code
never reaches the engine: the run crashes on the undefined variable cids,
the engine failure is never triggered and never surfaced. -/
theorem C5_engine_error_never_surfaced :
    provide envEngineFails (.coll [0, 1]) (.value ⟨false⟩) =
      (.crash "ReferenceError: cids is not defined",
       [Event.storeHas 0, Event.storeHas 1]) ∧
    noEngineCalls (provide envEngineFails (.coll [0, 1]) (.value ⟨false⟩)).2
      = true :=
  ⟨rfl, rfl⟩

/-- Claim C6: provide with a single identifier k equals provide with the
one-element collection [k] — same outcome and the same trace of local
store and engine calls, for any environment and options argument; the
array check normalizes both to the same key list before anything runs. -/
theorem C6_single_eq_singleton (env : Env) (k : CID)
    (optionsArg : OptionsArg) :
    provide env (.single k) optionsArg = provide env (.coll [k]) optionsArg :=
  rfl

/-- Claim C7: when the engine peer-record lookup succeeds, findpeer
returns the multiaddrs of the record flattened with toArray, and the
shaping step introduces no failure of its own; a record with zero
addresses yields the empty sequence. -/
theorem C7_findpeer_flattens_record (env : Env) (peer : Peer)
    (info : PeerInfo) (h : env.dhtFindPeer peer = .ok info) :
    findpeer env peer = .ok info.multiaddrs.toArray := by
  unfold findpeer
  rw [h]

/-- Witness for C7: an engine record with zero addresses makes findpeer
return ok of the empty sequence, not an error. -/
theorem C7_findpeer_flattens_record_witness :
    (envFindPeerEmpty.dhtFindPeer ⟨9⟩ = .ok ⟨⟨[]⟩⟩) ∧
    findpeer envFindPeerEmpty ⟨9⟩ = .ok ([] : List Multiaddr) :=
  ⟨rfl, C7_findpeer_flattens_record envFindPeerEmpty ⟨9⟩ ⟨⟨[]⟩⟩ rfl⟩

/-- Claim C8: the facade get is extensionally equal to the engine get:
same value on success, same error on failure, for every key. -/
theorem C8_get_extensionally_engine (env : Env) (key : Bytes) :
    get env key = env.dhtGet key := rfl

/-- Claim C9: a function passed in the options slot makes the options
default to the empty object, whose recursive field is falsy, so the call
behaves exactly like provide with explicit options recursive false. -/
theorem C9_callback_in_options_slot (env : Env) (keysArg : KeysArg) :
    provide env keysArg OptionsArg.func =
      provide env keysArg (.value ⟨false⟩) := rfl

/-- Claim C10: with recursive true and every key reported present, the
run ends in the empty TODO branch: the engine provide call is never
invoked and the user callback is never called, so the operation settles
with neither success nor error. -/
theorem C10_recursive_never_calls_back (env : Env) (keys : List CID)
    (h : keys.all (presentLocally env) = true) :
    provide env (.coll keys) (.value ⟨true⟩) =
      (.noCallback, keys.map Event.storeHas) := by
  unfold provide provideCore normalizeKeys normalizeOptions
  rw [everyHasResult_eq_all env keys (all_present_all_answers env keys h), h]
  rfl

/-- Witness for C10: with blocks 3 and 4 local and recursive true, the
run settles with neither success nor error and an all-local trace. -/
theorem C10_recursive_never_calls_back_witness :
    ([3, 4].all (presentLocally envPresent) = true) ∧
    provide envPresent (.coll [3, 4]) (.value ⟨true⟩) =
      (.noCallback, [Event.storeHas 3, Event.storeHas 4]) :=
  ⟨rfl, C10_recursive_never_calls_back envPresent [3, 4] rfl⟩
